import Mathlib

/-!
# Lead-Generator: the website script `src/website/script.js`

A shallow embedding of the four event handlers of the script:

* the anchor click handler (lines 2-13),
* the `launchDashboard` click handler and `showDashboardInstructions` (lines 16-85),
* the window scroll handler (lines 88-106),
* the `DOMContentLoaded` handler with its `IntersectionObserver` (lines 109-132).

DOM nodes are identified by natural numbers.  Calls into the browser whose effect lies outside
the page (`preventDefault`, `scrollIntoView`, `window.open`) are recorded in a trace.
Pixel offsets are integers.
-/

namespace LeadGenerator

/-! ## Anchor click handler (lines 2-13) -/

/-- Browser calls made by the anchor click handler. -/
inductive AnchorEffect
  | preventDefault
  | scrollIntoView (target : Nat) (behavior : String) (block : String)
  deriving DecidableEq, Repr

/-- The click listener of lines 3-12.  `querySelector` is `document.querySelector`: it returns
`.ok (some node)` for the first match, `.ok none` (JavaScript `null`) when nothing matches and
`.error _` when it throws on a selector it cannot parse; `href` is `this.getAttribute('href')`.
The result is the trace of browser calls, in order. -/
def anchorClick (querySelector : String → Except String (Option Nat)) (href : String) :
    List AnchorEffect :=
  AnchorEffect.preventDefault ::
    (match querySelector href with
     | .ok (some target) => [AnchorEffect.scrollIntoView target "smooth" "start"]
     | .ok none => []
     | .error _ => [])

/-! ## Launch button (lines 16-31) -/

/-- The part of a fetch `Response` the handler reads. -/
structure Response where
  ok : Bool
  deriving DecidableEq, Repr

/-- Calls made by the launch handler. -/
inductive LaunchEffect
  | windowOpen (url : String) (target : String)
  | showDashboardInstructions
  deriving DecidableEq, Repr

/-- Promise `.then(onFulfilled)`: a promise is the trace produced so far together with its
settlement, `.ok v` for fulfilled with `v` and `.error r` for rejected with reason `r`.  A callback
that throws rejects the derived promise. -/
def promiseThen {E α β : Type} (p : List E × Except String α)
    (onFulfilled : α → List E × Except String β) : List E × Except String β :=
  match p.2 with
  | .ok v => (p.1 ++ (onFulfilled v).1, (onFulfilled v).2)
  | .error r => (p.1, .error r)

/-- Promise `.catch(onRejected)`. -/
def promiseCatch {E α : Type} (p : List E × Except String α)
    (onRejected : String → List E × Except String α) : List E × Except String α :=
  match p.2 with
  | .ok _ => p
  | .error r => (p.1 ++ (onRejected r).1, (onRejected r).2)

/-- The `.then` callback of lines 19-26.  `windowOpenThrows` says whether the call of
`window.open` throws. -/
def thenCallback (windowOpenThrows : Bool) (response : Response) :
    List LaunchEffect × Except String Unit :=
  if response.ok then
    ([LaunchEffect.windowOpen "http://localhost:8501" "_blank"],
      if windowOpenThrows then .error "window.open" else .ok ())
  else
    ([], .error "Streamlit not running")

/-- The `.catch` callback of lines 27-30. -/
def catchCallback (_error : String) : List LaunchEffect × Except String Unit :=
  ([LaunchEffect.showDashboardInstructions], .ok ())

/-- The click listener of lines 16-31, given how `fetch('http://localhost:8501')` settles. -/
def launchDashboardClick (fetchResult : Except String Response) (windowOpenThrows : Bool) :
    List LaunchEffect :=
  (promiseCatch (promiseThen ([], fetchResult) (thenCallback windowOpenThrows)) catchCallback).1

/-- The probe fails: the fetch rejects, or resolves with `response.ok` false. -/
def probeFails : Except String Response → Bool
  | .ok response => !response.ok
  | .error _ => true

/-! ## The instructions modal (lines 33-85) -/

/-- The document as far as modals go: the modal nodes that are children of `document.body`, in
child order, and the identity the next `createElement('div')` for a modal gets. -/
structure Document where
  body : List Nat
  nextNode : Nat
  deriving DecidableEq, Repr

/-- What a click inside a modal can hit: the modal `div` itself (the backdrop), its content
`div` (heading, text, list), or the "Got it!" button. -/
inductive ClickTarget
  | modal (m : Nat)
  | content (m : Nat)
  | gotItButton (m : Nat)
  deriving DecidableEq, Repr

/-- The call `modal.remove()`: detach the node from the body; nothing happens when it is not
attached. -/
def removeNode (m : Nat) (doc : Document) : Document :=
  ⟨doc.body.filter (fun n => n ≠ m), doc.nextNode⟩

/-- The function `showDashboardInstructions` (lines 33-85): create a modal and append it to the
body.  Styles and the inner markup are left out; the two listeners are `gotItOnclick` and
`modalClickListener`. -/
def showDashboardInstructions (doc : Document) : Document :=
  ⟨doc.body ++ [doc.nextNode], doc.nextNode + 1⟩

/-- The inline `onclick` of the "Got it!" button of modal `m` (line 66):
`this.parentElement.parentElement.remove()`, the button's parent being the content `div` and
that one's parent the modal. -/
def gotItOnclick (m : Nat) (doc : Document) : Document :=
  removeNode m doc

/-- The click listener of modal `m` (lines 80-84). -/
def modalClickListener (m : Nat) (eTarget : ClickTarget) (doc : Document) : Document :=
  if eTarget = ClickTarget.modal m then removeNode m doc else doc

/-- Dispatch of a click: the listeners on the path from the target up to the body run in
order. -/
def dispatchClick (target : ClickTarget) (doc : Document) : Document :=
  match target with
  | .gotItButton m => modalClickListener m (.gotItButton m) (gotItOnclick m doc)
  | .content m => modalClickListener m (.content m) doc
  | .modal m => modalClickListener m (.modal m) doc

/-- Effect of one call of the launch handler on the document. -/
def applyLaunchEffect (doc : Document) : LaunchEffect → Document
  | .windowOpen _ _ => doc
  | .showDashboardInstructions => showDashboardInstructions doc

/-- User events on the page. -/
inductive Event
  | launchClick (fetchResult : Except String Response) (windowOpenThrows : Bool)
  | click (target : ClickTarget)

/-- One event. -/
def step (doc : Document) : Event → Document
  | .launchClick fetchResult windowOpenThrows =>
      (launchDashboardClick fetchResult windowOpenThrows).foldl applyLaunchEffect doc
  | .click target => dispatchClick target doc

/-- A sequence of events. -/
def run (doc : Document) (events : List Event) : Document :=
  events.foldl step doc

/-! ## Scroll handler (lines 88-106) -/

/-- A `section[id]` element: its `id` attribute and its `offsetTop`. -/
structure Section where
  id : String
  offsetTop : Int
  deriving DecidableEq, Repr

/-- A `nav a[href^="#"]` element: its `href` attribute and the tokens of its `classList`. -/
structure NavLink where
  href : String
  classList : List String
  deriving DecidableEq, Repr

/-- The call `classList.remove(token)`. -/
def classListRemove (token : String) (classList : List String) : List String :=
  classList.filter (fun t => t ≠ token)

/-- The call `classList.add(token)`: a token already there is not added again. -/
def classListAdd (token : String) (classList : List String) : List String :=
  if token ∈ classList then classList else classList ++ [token]

/-- The link carries the class `active`. -/
def isActive (link : NavLink) : Bool :=
  decide ("active" ∈ link.classList)

/-- The loop of lines 92-98: `current` after `sections.forEach`. -/
def currentSection (sections : List Section) (pageYOffset : Int) : String :=
  sections.foldl
    (fun current s => if pageYOffset ≥ s.offsetTop - 100 then s.id else current) ""

/-- The body of the loop of lines 100-105 for one link. -/
def highlight (current : String) (link : NavLink) : NavLink :=
  if link.href = "#" ++ current then
    ⟨link.href, classListAdd "active" (classListRemove "active" link.classList)⟩
  else
    ⟨link.href, classListRemove "active" link.classList⟩

/-- The scroll listener of lines 88-106: the nav links after it ran. -/
def scrollHandler (sections : List Section) (navLinks : List NavLink) (pageYOffset : Int) :
    List NavLink :=
  navLinks.map (highlight (currentSection sections pageYOffset))

/-- Number of nav links carrying the class `active`. -/
def activeCount (navLinks : List NavLink) : Nat :=
  navLinks.countP isActive

/-- Specification of `current` in words: the id of the last section in document order with
`pageYOffset >= offsetTop - 100`, the empty string when there is none. -/
def currentSpec (sections : List Section) (pageYOffset : Int) : String :=
  match (sections.filter (fun s => decide (pageYOffset ≥ s.offsetTop - 100))).getLast? with
  | some s => s.id
  | none => ""

/-- Position in document order of the last section with `pageYOffset >= offsetTop - 100`. -/
def currentIndex : List Section → Int → Option Nat
  | [], _ => none
  | s :: rest, pageYOffset =>
    match currentIndex rest pageYOffset with
    | some i => some (i + 1)
    | none => if pageYOffset ≥ s.offsetTop - 100 then some 0 else none

/-! ## Feature cards (lines 109-132) -/

/-- The inline style properties the script writes. -/
structure Style where
  opacity : String
  transform : String
  transition : String
  deriving DecidableEq, Repr

/-- An `IntersectionObserverEntry`: the node of its target and `isIntersecting`. -/
structure Entry where
  target : Nat
  isIntersecting : Bool
  deriving DecidableEq, Repr

/-- Style of a card as set by lines 127-129. -/
def hiddenStyle : Style :=
  ⟨"0", "translateY(20px)", "opacity 0.6s ease, transform 0.6s ease"⟩

/-- Style of a card after lines 119-120 ran on a card set up by lines 127-129. -/
def visibleStyle : Style :=
  ⟨"1", "translateY(0)", "opacity 0.6s ease, transform 0.6s ease"⟩

/-- Lines 127-129 for one card: the inline styles of all nodes afterwards. -/
def setupCard (styles : Nat → Style) (card : Nat) : Nat → Style :=
  fun n =>
    if n = card then ⟨"0", "translateY(20px)", "opacity 0.6s ease, transform 0.6s ease"⟩
    else styles n

/-- The loop of lines 126-131 over `document.querySelectorAll('.feature-card')`. -/
def domContentLoaded (cards : List Nat) (styles : Nat → Style) : Nat → Style :=
  cards.foldl setupCard styles

/-- Lines 118-121 for one entry. -/
def applyEntry (styles : Nat → Style) (entry : Entry) : Nat → Style :=
  if entry.isIntersecting then
    fun n => if n = entry.target then ⟨"1", "translateY(0)", (styles n).transition⟩ else styles n
  else styles

/-- The observer callback of lines 116-123 on one batch of entries. -/
def observerCallback (styles : Nat → Style) (entries : List Entry) : Nat → Style :=
  entries.foldl applyEntry styles

/-- A sequence of callback batches. -/
def runBatches (styles : Nat → Style) (batches : List (List Entry)) : Nat → Style :=
  batches.foldl observerCallback styles

/-- The entry makes card `c` visible: it is for `c` and intersecting. -/
def shows (c : Nat) (entry : Entry) : Bool :=
  decide (entry.target = c) && entry.isIntersecting

/-- Number of entries, over a run of entries from `styles`, at which card `c` goes from the
hidden style to the visible style. -/
def transitionCount (c : Nat) : (Nat → Style) → List Entry → Nat
  | _, [] => 0
  | styles, e :: es =>
    (if styles c = hiddenStyle ∧ applyEntry styles e c = visibleStyle then 1 else 0)
      + transitionCount c (applyEntry styles e) es

/-! ## Scroll handler: lemmas -/

theorem mem_classListRemove (token t : String) (cl : List String) :
    t ∈ classListRemove token cl ↔ t ∈ cl ∧ t ≠ token := by
  simp [classListRemove]

theorem highlight_href (current : String) (link : NavLink) :
    (highlight current link).href = link.href := by
  unfold highlight
  split <;> rfl

theorem highlight_isActive (current : String) (link : NavLink) :
    isActive (highlight current link) = true ↔ link.href = "#" ++ current := by
  unfold highlight isActive
  split
  · simp [classListAdd, classListRemove, *]
  · simp [classListRemove, *]

theorem foldl_current_eq_spec (sections : List Section) (y : Int) (init : String) :
    sections.foldl (fun current s => if y ≥ s.offsetTop - 100 then s.id else current) init =
      match (sections.filter (fun s => decide (y ≥ s.offsetTop - 100))).getLast? with
      | some s => s.id
      | none => init := by
  induction sections generalizing init with
  | nil => rfl
  | cons s rest ih =>
    rw [List.foldl_cons, ih]
    by_cases h : y ≥ s.offsetTop - 100
    · rw [List.filter_cons_of_pos (by simpa using h), List.getLast?_cons, if_pos h]
      cases (List.filter _ rest).getLast? <;> rfl
    · rw [List.filter_cons_of_neg (by simpa using h), if_neg h]

theorem currentSection_eq_currentSpec (sections : List Section) (y : Int) :
    currentSection sections y = currentSpec sections y :=
  foldl_current_eq_spec sections y ""

theorem scrollHandler_map_href (sections : List Section) (navLinks : List NavLink) (y : Int) :
    (scrollHandler sections navLinks y).map NavLink.href = navLinks.map NavLink.href := by
  simp [scrollHandler, Function.comp_def, highlight_href]

theorem scrollHandler_map_isActive (sections : List Section) (navLinks : List NavLink)
    (y : Int) :
    (scrollHandler sections navLinks y).map isActive =
      navLinks.map (fun link => decide (link.href = "#" ++ currentSection sections y)) := by
  simp only [scrollHandler, List.map_map]
  apply List.map_congr_left
  intro link _
  have h := highlight_isActive (currentSection sections y) link
  by_cases hl : link.href = "#" ++ currentSection sections y
  · simp [h.2 hl, hl]
  · have : isActive (highlight (currentSection sections y) link) ≠ true := fun hc => hl (h.1 hc)
    simp [hl, this]

theorem activeCount_scrollHandler (sections : List Section) (navLinks : List NavLink)
    (y : Int) :
    activeCount (scrollHandler sections navLinks y) =
      navLinks.countP (fun link => decide (link.href = "#" ++ currentSection sections y)) := by
  unfold activeCount scrollHandler
  rw [List.countP_map]
  apply List.countP_congr
  intro link _
  simp [highlight_isActive]

theorem currentSection_eq_empty (sections : List Section) (y : Int)
    (h : ∀ s ∈ sections, ¬ (y ≥ s.offsetTop - 100)) : currentSection sections y = "" := by
  rw [currentSection_eq_currentSpec]
  unfold currentSpec
  have hnil : sections.filter (fun s => decide (y ≥ s.offsetTop - 100)) = [] := by
    rw [List.filter_eq_nil_iff]
    intro s hs
    simpa using h s hs
  rw [hnil]
  rfl

theorem currentSection_mem (sections : List Section) (y : Int) (s : Section)
    (hs : s ∈ sections) (hy : y ≥ s.offsetTop - 100) :
    ∃ t ∈ sections, y ≥ t.offsetTop - 100 ∧ currentSection sections y = t.id := by
  rw [currentSection_eq_currentSpec]
  unfold currentSpec
  have hmem : s ∈ sections.filter (fun s => decide (y ≥ s.offsetTop - 100)) := by
    rw [List.mem_filter]
    exact ⟨hs, by simpa using hy⟩
  cases hlast : (sections.filter (fun s => decide (y ≥ s.offsetTop - 100))).getLast? with
  | none =>
    rw [List.getLast?_eq_none_iff] at hlast
    rw [hlast] at hmem
    cases hmem
  | some t =>
    have ht := List.mem_of_getLast?_eq_some hlast
    rw [List.mem_filter] at ht
    exact ⟨t, ht.1, by simpa using ht.2, rfl⟩

theorem highlight_highlight (current : String) (link : NavLink) :
    highlight current (highlight current link) = highlight current link := by
  unfold highlight
  by_cases h : link.href = "#" ++ current
  · simp [h, classListAdd, classListRemove, List.filter_filter]
  · simp [h, classListRemove, List.filter_filter]

/-! ## Scroll handler: the highlighted link -/

/-- C2: after the scroll handler ran, the nav links are the same links (same hrefs, same order)
and a link carries `active` exactly when its href is `#` followed by `current`, where `current`
is the id of the last section in document order with `pageYOffset >= offsetTop - 100`, or the
empty string when there is none. -/
theorem scrollHandler_active_iff (sections : List Section) (navLinks : List NavLink)
    (pageYOffset : Int) :
    (scrollHandler sections navLinks pageYOffset).map NavLink.href = navLinks.map NavLink.href ∧
    (scrollHandler sections navLinks pageYOffset).map isActive =
      navLinks.map (fun link => decide (link.href = "#" ++ currentSpec sections pageYOffset)) ∧
    currentSection sections pageYOffset = currentSpec sections pageYOffset := by
  refine ⟨scrollHandler_map_href _ _ _, ?_, currentSection_eq_currentSpec _ _⟩
  rw [scrollHandler_map_isActive, currentSection_eq_currentSpec]

/-- C3, as stated, fails: on a page with the one section `home` at offset 0, scrolled to that
offset, no link is active when the only nav link points elsewhere, and two links are active when
two nav links point to `#home`. -/
theorem scrollHandler_activeCount_counterexample :
    (⟨"home", 0⟩ : Section) ∈ [(⟨"home", 0⟩ : Section)] ∧
    activeCount (scrollHandler [⟨"home", 0⟩] [⟨"#about", []⟩] (0 : Int)) = 0 ∧
    activeCount (scrollHandler [⟨"home", 0⟩] [⟨"#home", []⟩, ⟨"#home", ["active"]⟩] (0 : Int))
      = 2 := by
  refine ⟨by simp, ?_, ?_⟩ <;> rw [activeCount_scrollHandler] <;>
    simp [currentSection, List.countP_cons]

/-- C3, amended: on a page where every section has exactly one nav link whose href is `#`
followed by its id, after the scroll handler ran with `pageYOffset` equal to the `offsetTop` of a
section of the page, exactly one nav link carries `active`. -/
theorem scrollHandler_exactly_one_active (sections : List Section) (navLinks : List NavLink)
    (s : Section)
    (hnav : ∀ t ∈ sections, navLinks.countP (fun link => decide (link.href = "#" ++ t.id)) = 1)
    (hs : s ∈ sections) :
    activeCount (scrollHandler sections navLinks s.offsetTop) = 1 := by
  obtain ⟨t, ht, _, hcur⟩ := currentSection_mem sections s.offsetTop s hs (by omega)
  rw [activeCount_scrollHandler, hcur]
  exact hnav t ht

/-- C3 (amended) on a page with the sections `home` and `about` and one nav link for each, scrolled to the offset of `about`. -/
theorem scrollHandler_exactly_one_active_witness :
    (∀ t ∈ [(⟨"home", 0⟩ : Section), ⟨"about", 700⟩],
      ([⟨"#home", ["active"]⟩, ⟨"#about", []⟩] : List NavLink).countP
        (fun link => decide (link.href = "#" ++ t.id)) = 1) ∧
    (⟨"about", 700⟩ : Section) ∈ [(⟨"home", 0⟩ : Section), ⟨"about", 700⟩] ∧
    activeCount (scrollHandler [⟨"home", 0⟩, ⟨"about", 700⟩]
      [⟨"#home", ["active"]⟩, ⟨"#about", []⟩] (⟨"about", 700⟩ : Section).offsetTop) = 1 :=
  ⟨by simp [List.countP_cons], by simp,
    scrollHandler_exactly_one_active [⟨"home", 0⟩, ⟨"about", 700⟩]
      [⟨"#home", ["active"]⟩, ⟨"#about", []⟩] ⟨"about", 700⟩ (by simp [List.countP_cons])
      (by simp)⟩

/-- C8: when no section has `pageYOffset >= offsetTop - 100` (in particular when there is no
section), `current` is the empty string, the links carrying `active` afterwards are exactly
those whose href is the bare `#`, and there is none when no nav link has href `#`. -/
theorem scrollHandler_no_section (sections : List Section) (navLinks : List NavLink)
    (pageYOffset : Int)
    (hnone : ∀ s ∈ sections, ¬ (pageYOffset ≥ s.offsetTop - 100)) :
    currentSection sections pageYOffset = "" ∧
    (scrollHandler sections navLinks pageYOffset).map isActive =
      navLinks.map (fun link => decide (link.href = "#")) ∧
    ((∀ link ∈ navLinks, link.href ≠ "#") →
      activeCount (scrollHandler sections navLinks pageYOffset) = 0) := by
  have hcur := currentSection_eq_empty sections pageYOffset hnone
  have hsharp : "#" ++ "" = "#" := rfl
  refine ⟨hcur, ?_, ?_⟩
  · rw [scrollHandler_map_isActive, hcur, hsharp]
  · intro hno
    rw [activeCount_scrollHandler, hcur, hsharp, List.countP_eq_zero]
    intro link hlink
    simpa using hno link hlink

/-- C8 on a page whose only section starts at 500, scrolled to 0. -/
theorem scrollHandler_no_section_witness :
    (∀ s ∈ [(⟨"home", 500⟩ : Section)], ¬ ((0 : Int) ≥ s.offsetTop - 100)) ∧
    currentSection [⟨"home", 500⟩] 0 = "" ∧
    (scrollHandler [⟨"home", 500⟩] [⟨"#", []⟩, ⟨"#home", ["active"]⟩] 0).map isActive =
      ([⟨"#", []⟩, ⟨"#home", ["active"]⟩] : List NavLink).map
        (fun link => decide (link.href = "#")) ∧
    ((∀ link ∈ ([⟨"#", []⟩, ⟨"#home", ["active"]⟩] : List NavLink), link.href ≠ "#") →
      activeCount (scrollHandler [⟨"home", 500⟩] [⟨"#", []⟩, ⟨"#home", ["active"]⟩] 0) = 0) :=
  ⟨by simp, scrollHandler_no_section [⟨"home", 500⟩] [⟨"#", []⟩, ⟨"#home", ["active"]⟩] 0
    (by simp)⟩

/-- C9: which links carry `active` after the scroll handler depends only on the sections, the
hrefs of the nav links and `pageYOffset`: two lists of nav links with the same hrefs and any
classes before give the same active links, and running the handler a second time at the same
scroll position changes nothing. -/
theorem scrollHandler_independent_idempotent (sections : List Section)
    (navLinks navLinks2 : List NavLink) (pageYOffset : Int)
    (hhref : navLinks.map NavLink.href = navLinks2.map NavLink.href) :
    (scrollHandler sections navLinks pageYOffset).map isActive =
      (scrollHandler sections navLinks2 pageYOffset).map isActive ∧
    scrollHandler sections (scrollHandler sections navLinks pageYOffset) pageYOffset =
      scrollHandler sections navLinks pageYOffset := by
  constructor
  · rw [scrollHandler_map_isActive, scrollHandler_map_isActive]
    have h1 : ∀ l : List NavLink,
        l.map (fun link => decide (link.href = "#" ++ currentSection sections pageYOffset)) =
          (l.map NavLink.href).map
            (fun h => decide (h = "#" ++ currentSection sections pageYOffset)) := by
      intro l
      simp [List.map_map, Function.comp_def]
    rw [h1 navLinks, h1 navLinks2, hhref]
  · simp [scrollHandler, List.map_map, Function.comp_def, highlight_highlight]

/-- C9 on a two-section page scrolled to 650, for two assignments of classes to the same two links. -/
theorem scrollHandler_independent_idempotent_witness :
    ([⟨"#home", ["active"]⟩, ⟨"#about", ["btn"]⟩] : List NavLink).map NavLink.href =
      ([⟨"#home", []⟩, ⟨"#about", ["active", "btn"]⟩] : List NavLink).map NavLink.href ∧
    ((scrollHandler [⟨"home", 0⟩, ⟨"about", 700⟩]
        [⟨"#home", ["active"]⟩, ⟨"#about", ["btn"]⟩] 650).map isActive =
      (scrollHandler [⟨"home", 0⟩, ⟨"about", 700⟩]
        [⟨"#home", []⟩, ⟨"#about", ["active", "btn"]⟩] 650).map isActive ∧
    scrollHandler [⟨"home", 0⟩, ⟨"about", 700⟩] (scrollHandler [⟨"home", 0⟩, ⟨"about", 700⟩]
        [⟨"#home", ["active"]⟩, ⟨"#about", ["btn"]⟩] 650) 650 =
      scrollHandler [⟨"home", 0⟩, ⟨"about", 700⟩]
        [⟨"#home", ["active"]⟩, ⟨"#about", ["btn"]⟩] 650) :=
  ⟨by simp, scrollHandler_independent_idempotent [⟨"home", 0⟩, ⟨"about", 700⟩]
    [⟨"#home", ["active"]⟩, ⟨"#about", ["btn"]⟩] [⟨"#home", []⟩, ⟨"#about", ["active", "btn"]⟩]
    650 (by simp)⟩

/-! ## Scroll handler: position of the current section -/

theorem currentIndex_eq_none (sections : List Section) (y : Int) :
    currentIndex sections y = none ↔ ∀ s ∈ sections, ¬ (y ≥ s.offsetTop - 100) := by
  induction sections with
  | nil => simp [currentIndex]
  | cons a rest ih =>
    unfold currentIndex
    cases hr : currentIndex rest y with
    | some k =>
      have hne : ¬ ∀ s ∈ rest, ¬ (y ≥ s.offsetTop - 100) := fun hc => by
        rw [ih.2 hc] at hr
        cases hr
      simp only [List.mem_cons, forall_eq_or_imp]
      constructor
      · intro h
        cases h
      · intro h
        exact absurd h.2 hne
    | none =>
      have hall := ih.1 hr
      simp only [List.mem_cons, forall_eq_or_imp]
      by_cases ha : y ≥ a.offsetTop - 100
      · simp [ha]
      · simp only [ha, if_false, true_iff]
        exact ⟨fun h => h, hall⟩

theorem foldl_current_of_none (sections : List Section) (y : Int) (init : String)
    (h : currentIndex sections y = none) :
    sections.foldl (fun current s => if y ≥ s.offsetTop - 100 then s.id else current) init
      = init := by
  rw [foldl_current_eq_spec]
  have hnil : sections.filter (fun s => decide (y ≥ s.offsetTop - 100)) = [] := by
    rw [List.filter_eq_nil_iff]
    intro s hs
    simpa using (currentIndex_eq_none sections y).1 h s hs
  rw [hnil]
  rfl

theorem currentIndex_some (sections : List Section) (y : Int) (i : Nat)
    (h : currentIndex sections y = some i) :
    ∃ t, sections[i]? = some t ∧ y ≥ t.offsetTop - 100 ∧
      (∀ init, sections.foldl
        (fun current s => if y ≥ s.offsetTop - 100 then s.id else current) init = t.id) ∧
      (∀ j s, i < j → sections[j]? = some s → ¬ (y ≥ s.offsetTop - 100)) := by
  induction sections generalizing i with
  | nil => simp [currentIndex] at h
  | cons a rest ih =>
    unfold currentIndex at h
    cases hr : currentIndex rest y with
    | some k =>
      rw [hr] at h
      simp only [Option.some.injEq] at h
      subst h
      obtain ⟨t, ht, hsat, hfold, hlater⟩ := ih k hr
      refine ⟨t, by simpa using ht, hsat, fun init => by rw [List.foldl_cons, hfold], ?_⟩
      intro j s hj hs
      cases j with
      | zero => omega
      | succ j => exact hlater j s (by omega) (by simpa using hs)
    | none =>
      rw [hr] at h
      by_cases ha : y ≥ a.offsetTop - 100
      · simp only [ha, if_true, Option.some.injEq] at h
        subst h
        refine ⟨a, by simp, ha, fun init => ?_, ?_⟩
        · rw [List.foldl_cons, foldl_current_of_none rest y _ hr, if_pos ha]
        · intro j s hj hs
          cases j with
          | zero => omega
          | succ j =>
            have hmem : s ∈ rest := List.getElem?_mem (by simpa using hs)
            exact (currentIndex_eq_none rest y).1 hr s hmem
      · simp [ha] at h

theorem currentIndex_greatest (sections : List Section) (y : Int) (i : Nat) (t : Section)
    (hsorted : sections.Pairwise (fun a b => a.offsetTop ≤ b.offsetTop))
    (h : currentIndex sections y = some i) (ht : sections[i]? = some t) :
    ∀ s ∈ sections, y ≥ s.offsetTop - 100 → s.offsetTop ≤ t.offsetTop := by
  induction sections generalizing i with
  | nil => simp [currentIndex] at h
  | cons a rest ih =>
    rw [List.pairwise_cons] at hsorted
    unfold currentIndex at h
    cases hr : currentIndex rest y with
    | some k =>
      rw [hr] at h
      simp only [Option.some.injEq] at h
      subst h
      have ht2 : rest[k]? = some t := by simpa using ht
      intro s hs hsat
      rcases List.mem_cons.1 hs with rfl | hs
      · exact hsorted.1 t (List.getElem?_mem ht2)
      · exact ih k hsorted.2 hr ht2 s hs hsat
    | none =>
      rw [hr] at h
      by_cases ha : y ≥ a.offsetTop - 100
      · simp only [ha, if_true, Option.some.injEq] at h
        subst h
        have hta : a = t := by simpa using ht
        subst hta
        intro s hs hsat
        rcases List.mem_cons.1 hs with rfl | hs
        · exact le_refl _
        · exact absurd hsat ((currentIndex_eq_none rest y).1 hr s hs)
      · simp [ha] at h

theorem currentIndex_mono (sections : List Section) (y y2 : Int) (i : Nat) (hy : y ≤ y2)
    (h : currentIndex sections y = some i) :
    ∃ j, currentIndex sections y2 = some j ∧ i ≤ j := by
  induction sections generalizing i with
  | nil => simp [currentIndex] at h
  | cons a rest ih =>
    unfold currentIndex at h
    unfold currentIndex
    cases hr : currentIndex rest y with
    | some k =>
      rw [hr] at h
      simp only [Option.some.injEq] at h
      subst h
      obtain ⟨j, hj, hkj⟩ := ih k hr
      exact ⟨j + 1, by rw [hj], by omega⟩
    | none =>
      rw [hr] at h
      by_cases ha : y ≥ a.offsetTop - 100
      · simp only [ha, if_true, Option.some.injEq] at h
        subst h
        cases hr2 : currentIndex rest y2 with
        | some k => exact ⟨k + 1, rfl, by omega⟩
        | none =>
          have ha2 : y2 ≥ a.offsetTop - 100 := by omega
          exact ⟨0, by simp [ha2], le_refl _⟩
      · simp [ha] at h

/-- C10: with the sections in document order by non-decreasing `offsetTop`, if some section has
`pageYOffset >= offsetTop - 100` then the current section has the greatest `offsetTop` among
those that have, and when `pageYOffset` increases the position of the current section in
document order does not decrease.  In any order the handler picks the last section in document
order with `pageYOffset >= offsetTop - 100`, and for `[a at 500, b at 0]` scrolled to 1000 that
is `b`, not the section with the greatest `offsetTop`. -/
theorem currentSection_sorted (sections : List Section) (pageYOffset pageYOffset2 : Int)
    (hsorted : sections.Pairwise (fun a b => a.offsetTop ≤ b.offsetTop))
    (hy : pageYOffset ≤ pageYOffset2) :
    (∀ s ∈ sections, pageYOffset ≥ s.offsetTop - 100 →
      ∃ i t, currentIndex sections pageYOffset = some i ∧ sections[i]? = some t ∧
        currentSection sections pageYOffset = t.id ∧ pageYOffset ≥ t.offsetTop - 100 ∧
        ∀ u ∈ sections, pageYOffset ≥ u.offsetTop - 100 → u.offsetTop ≤ t.offsetTop) ∧
    (∀ i, currentIndex sections pageYOffset = some i →
      ∃ j, currentIndex sections pageYOffset2 = some j ∧ i ≤ j) ∧
    (∀ (others : List Section) (y : Int) (i : Nat), currentIndex others y = some i →
      ∃ t, others[i]? = some t ∧ currentSection others y = t.id ∧ y ≥ t.offsetTop - 100 ∧
        ∀ j u, i < j → others[j]? = some u → ¬ (y ≥ u.offsetTop - 100)) ∧
    (currentSection [⟨"a", 500⟩, ⟨"b", 0⟩] 1000 = "b" ∧
      (⟨"a", 500⟩ : Section) ∈ [(⟨"a", 500⟩ : Section), ⟨"b", 0⟩] ∧
      (1000 : Int) ≥ (⟨"a", 500⟩ : Section).offsetTop - 100 ∧
      (⟨"b", 0⟩ : Section).offsetTop < (⟨"a", 500⟩ : Section).offsetTop) := by
  refine ⟨?_, ?_, ?_, ?_⟩
  · intro s hs hsat
    cases hi : currentIndex sections pageYOffset with
    | none => exact absurd hsat ((currentIndex_eq_none sections pageYOffset).1 hi s hs)
    | some i =>
      obtain ⟨t, ht, htsat, hfold, _⟩ := currentIndex_some sections pageYOffset i hi
      exact ⟨i, t, rfl, ht, hfold "", htsat,
        currentIndex_greatest sections pageYOffset i t hsorted hi ht⟩
  · intro i hi
    exact currentIndex_mono sections pageYOffset pageYOffset2 i hy hi
  · intro others y i hi
    obtain ⟨t, ht, htsat, hfold, hlater⟩ := currentIndex_some others y i hi
    exact ⟨t, ht, hfold "", htsat, hlater⟩
  · simp [currentSection]

/-- C10 on a page with sections at 0, 700 and 1500, scrolled from 650 to 1400. -/
theorem currentSection_sorted_witness :
    ([⟨"home", 0⟩, ⟨"about", 700⟩, ⟨"contact", 1500⟩] : List Section).Pairwise
      (fun a b => a.offsetTop ≤ b.offsetTop) ∧
    (650 : Int) ≤ 1400 ∧
    currentIndex [⟨"home", 0⟩, ⟨"about", 700⟩, ⟨"contact", 1500⟩] 650 = some 1 ∧
    currentSection [⟨"home", 0⟩, ⟨"about", 700⟩, ⟨"contact", 1500⟩] 650 = "about" ∧
    currentIndex [⟨"home", 0⟩, ⟨"about", 700⟩, ⟨"contact", 1500⟩] 1400 = some 2 ∧
    ∀ i, currentIndex [⟨"home", 0⟩, ⟨"about", 700⟩, ⟨"contact", 1500⟩] 650 = some i →
      ∃ j, currentIndex [⟨"home", 0⟩, ⟨"about", 700⟩, ⟨"contact", 1500⟩] 1400 = some j ∧
        i ≤ j :=
  ⟨by simp, by decide, by simp [currentIndex], by simp [currentSection],
    by simp [currentIndex],
    (currentSection_sorted [⟨"home", 0⟩, ⟨"about", 700⟩, ⟨"contact", 1500⟩] 650 1400
      (by simp) (by decide)).2.1⟩

/-! ## Anchor links and the launch button -/

/-- C6: a click on a same-page anchor link calls `preventDefault`, first and in every case; it
calls `scrollIntoView` on an element, with behavior `smooth` and block `start`, exactly when the
lookup of the href returns that element; and it does nothing besides `preventDefault` exactly
when the lookup returns no element. -/
theorem anchorClick_spec (querySelector : String → Except String (Option Nat))
    (href : String) :
    (anchorClick querySelector href).head? = some AnchorEffect.preventDefault ∧
    (anchorClick querySelector href).count AnchorEffect.preventDefault = 1 ∧
    (∀ target behavior block,
      AnchorEffect.scrollIntoView target behavior block ∈ anchorClick querySelector href ↔
        (querySelector href = .ok (some target) ∧ behavior = "smooth" ∧ block = "start")) ∧
    (anchorClick querySelector href = [AnchorEffect.preventDefault] ↔
      ∀ target, querySelector href ≠ .ok (some target)) := by
  unfold anchorClick
  cases hq : querySelector href with
  | error e => simp
  | ok r =>
    cases r with
    | none => simp
    | some t =>
      simp
      intro target
      exact eq_comm

/-- C1: the launch handler's calls for every outcome of the probe: when the fetch resolves with
`response.ok` true it opens `http://localhost:8501` in `_blank` and, `window.open` not throwing,
does not call `showDashboardInstructions`; when the fetch rejects or resolves with `response.ok`
false it calls `showDashboardInstructions` once and does not call `window.open`; the two
failures give the same calls. -/
theorem launchDashboardClick_outcomes (fetchResult : Except String Response)
    (reason : String) (windowOpenThrows : Bool) :
    launchDashboardClick (.ok ⟨true⟩) false =
      [LaunchEffect.windowOpen "http://localhost:8501" "_blank"] ∧
    launchDashboardClick (.error reason) windowOpenThrows =
      [LaunchEffect.showDashboardInstructions] ∧
    launchDashboardClick (.ok ⟨false⟩) windowOpenThrows =
      [LaunchEffect.showDashboardInstructions] ∧
    launchDashboardClick (.error reason) windowOpenThrows =
      launchDashboardClick (.ok ⟨false⟩) windowOpenThrows ∧
    launchDashboardClick fetchResult windowOpenThrows =
      (if probeFails fetchResult then [LaunchEffect.showDashboardInstructions]
       else if windowOpenThrows then
         [LaunchEffect.windowOpen "http://localhost:8501" "_blank",
          LaunchEffect.showDashboardInstructions]
       else [LaunchEffect.windowOpen "http://localhost:8501" "_blank"]) := by
  refine ⟨rfl, rfl, rfl, rfl, ?_⟩
  cases fetchResult with
  | error e => rfl
  | ok response =>
    cases response with
    | mk b => cases b <;> cases windowOpenThrows <;> rfl

/-! ## The instructions modal -/

theorem step_launchClick_of_fails (doc : Document) (fetchResult : Except String Response)
    (windowOpenThrows : Bool) (hfail : probeFails fetchResult = true) :
    step doc (Event.launchClick fetchResult windowOpenThrows) = showDashboardInstructions doc := by
  cases fetchResult with
  | error e => rfl
  | ok response =>
    cases response with
    | mk b =>
      cases b
      · rfl
      · simp [probeFails] at hfail

theorem run_failed_clicks (clicks : List (Except String Response × Bool)) (doc : Document)
    (hfail : ∀ c ∈ clicks, probeFails c.1 = true) :
    run doc (clicks.map (fun c => Event.launchClick c.1 c.2)) =
      ⟨doc.body ++ List.range' doc.nextNode clicks.length, doc.nextNode + clicks.length⟩ := by
  induction clicks generalizing doc with
  | nil => simp [run]
  | cons c rest ih =>
    have hc : probeFails c.1 = true := hfail c (List.mem_cons_self _ _)
    have hrest : ∀ d ∈ rest, probeFails d.1 = true :=
      fun d hd => hfail d (List.mem_cons_of_mem _ hd)
    have hrun : run doc ((c :: rest).map (fun c => Event.launchClick c.1 c.2)) =
        run (showDashboardInstructions doc) (rest.map (fun c => Event.launchClick c.1 c.2)) := by
      simp only [run, List.map_cons, List.foldl_cons]
      rw [step_launchClick_of_fails doc c.1 c.2 hc]
    rw [hrun, ih (showDashboardInstructions doc) hrest]
    simp [showDashboardInstructions, List.range'_succ, Nat.add_assoc, Nat.add_comm 1]

/-- C4: from a body without modal, one click on the launch button with a failing probe leaves
exactly one modal in the body; a click on its "Got it!" button then leaves the body without
modal, and so does a click whose target is the modal itself. -/
theorem modal_open_close (doc : Document) (fetchResult : Except String Response)
    (windowOpenThrows : Bool) (hbody : doc.body = [])
    (hfail : probeFails fetchResult = true) :
    (step doc (Event.launchClick fetchResult windowOpenThrows)).body = [doc.nextNode] ∧
    (step (step doc (Event.launchClick fetchResult windowOpenThrows))
      (Event.click (ClickTarget.gotItButton doc.nextNode))).body = [] ∧
    (step (step doc (Event.launchClick fetchResult windowOpenThrows))
      (Event.click (ClickTarget.modal doc.nextNode))).body = [] := by
  rw [step_launchClick_of_fails doc fetchResult windowOpenThrows hfail]
  simp [showDashboardInstructions, hbody, step, dispatchClick, modalClickListener,
    gotItOnclick, removeNode]

/-- C4 from the empty body, the fetch rejecting. -/
theorem modal_open_close_witness :
    (⟨[], 0⟩ : Document).body = [] ∧
    probeFails (.error "Failed to fetch") = true ∧
    (step ⟨[], 0⟩ (Event.launchClick (.error "Failed to fetch") false)).body = [0] ∧
    (step (step ⟨[], 0⟩ (Event.launchClick (.error "Failed to fetch") false))
      (Event.click (ClickTarget.gotItButton 0))).body = [] ∧
    (step (step ⟨[], 0⟩ (Event.launchClick (.error "Failed to fetch") false))
      (Event.click (ClickTarget.modal 0))).body = [] :=
  ⟨rfl, rfl, modal_open_close ⟨[], 0⟩ (.error "Failed to fetch") false rfl rfl⟩

/-- C5: launch clicks with failing probes and no close in between each add a new modal: after
`n` of them the body holds `n` more modals than before, all of them different nodes, so from a
body without modal it holds `n`.  Two such clicks leave two modals: at most one modal at a time
is not an invariant of the code. -/
theorem failed_clicks_stack_modals (doc : Document)
    (clicks : List (Except String Response × Bool))
    (hfail : ∀ c ∈ clicks, probeFails c.1 = true) :
    (run doc (clicks.map (fun c => Event.launchClick c.1 c.2))).body =
      doc.body ++ List.range' doc.nextNode clicks.length ∧
    (run doc (clicks.map (fun c => Event.launchClick c.1 c.2))).body.length =
      doc.body.length + clicks.length ∧
    (run ⟨[], 0⟩ [Event.launchClick (.error "Failed to fetch") false,
      Event.launchClick (.ok ⟨false⟩) false]).body = [0, 1] ∧
    ¬ (∀ events : List Event, (run ⟨[], 0⟩ events).body.length ≤ 1) := by
  rw [run_failed_clicks clicks doc hfail]
  refine ⟨rfl, by simp, rfl, ?_⟩
  intro h
  have h2 := h [Event.launchClick (.error "Failed to fetch") false,
    Event.launchClick (.ok ⟨false⟩) false]
  revert h2
  decide

/-- C5 for two clicks from the empty body, the fetch rejecting and then resolving with a non-success status. -/
theorem failed_clicks_stack_modals_witness :
    (∀ c ∈ [((.error "Failed to fetch" : Except String Response), false), (.ok ⟨false⟩, false)],
      probeFails c.1 = true) ∧
    (run ⟨[], 0⟩ ([((.error "Failed to fetch" : Except String Response), false),
        (.ok ⟨false⟩, false)].map (fun c => Event.launchClick c.1 c.2))).body.length = 0 + 2 :=
  ⟨by simp [probeFails],
    (failed_clicks_stack_modals ⟨[], 0⟩
      [((.error "Failed to fetch" : Except String Response), false), (.ok ⟨false⟩, false)]
      (by simp [probeFails])).2.1⟩

/-! ## Feature cards -/

theorem hiddenStyle_ne_visibleStyle : hiddenStyle ≠ visibleStyle := by
  decide

theorem domContentLoaded_apply (cards : List Nat) (styles : Nat → Style) (c : Nat) :
    domContentLoaded cards styles c = if c ∈ cards then hiddenStyle else styles c := by
  unfold domContentLoaded
  induction cards generalizing styles with
  | nil => simp
  | cons a rest ih =>
    rw [List.foldl_cons, ih]
    by_cases hr : c ∈ rest
    · simp [hr]
    · by_cases hca : c = a
      · simp [hr, hca, setupCard, hiddenStyle]
      · simp [hr, hca, setupCard]

theorem applyEntry_apply (styles : Nat → Style) (e : Entry) (c : Nat) :
    applyEntry styles e c =
      if shows c e then ⟨"1", "translateY(0)", (styles c).transition⟩ else styles c := by
  unfold applyEntry shows
  by_cases hi : e.isIntersecting = true
  · by_cases hc : c = e.target
    · simp [hi, hc]
    · have hc2 : ¬ e.target = c := fun h => hc h.symm
      simp [hi, hc, hc2]
  · by_cases hc : e.target = c <;> simp [hi, hc]

theorem applyEntry_hidden (styles : Nat → Style) (e : Entry) (c : Nat)
    (h : styles c = hiddenStyle) :
    applyEntry styles e c = if shows c e then visibleStyle else hiddenStyle := by
  rw [applyEntry_apply, h]
  rfl

theorem applyEntry_visible (styles : Nat → Style) (e : Entry) (c : Nat)
    (h : styles c = visibleStyle) : applyEntry styles e c = visibleStyle := by
  rw [applyEntry_apply, h]
  by_cases hs : shows c e = true
  · rw [if_pos hs]
    rfl
  · rw [if_neg hs]

theorem observerCallback_visible (es : List Entry) (styles : Nat → Style) (c : Nat)
    (h : styles c = visibleStyle) : observerCallback styles es c = visibleStyle := by
  unfold observerCallback
  induction es generalizing styles with
  | nil => exact h
  | cons e rest ih =>
    rw [List.foldl_cons]
    exact ih _ (applyEntry_visible styles e c h)

theorem observerCallback_hidden (es : List Entry) (styles : Nat → Style) (c : Nat)
    (h : styles c = hiddenStyle) :
    observerCallback styles es c = if es.any (shows c) then visibleStyle else hiddenStyle := by
  induction es generalizing styles with
  | nil => simpa [observerCallback] using h
  | cons e rest ih =>
    have hstep := applyEntry_hidden styles e c h
    have hunf : observerCallback styles (e :: rest) = observerCallback (applyEntry styles e) rest :=
      rfl
    rw [hunf]
    by_cases hs : shows c e = true
    · rw [if_pos hs] at hstep
      rw [observerCallback_visible rest _ c hstep]
      simp [hs]
    · rw [if_neg hs] at hstep
      rw [ih _ hstep]
      simp [hs]

theorem transitionCount_visible (es : List Entry) (styles : Nat → Style) (c : Nat)
    (h : styles c = visibleStyle) : transitionCount c styles es = 0 := by
  induction es generalizing styles with
  | nil => rfl
  | cons e rest ih =>
    unfold transitionCount
    have hne : ¬ styles c = hiddenStyle := by
      rw [h]
      exact fun hc => hiddenStyle_ne_visibleStyle hc.symm
    rw [ih _ (applyEntry_visible styles e c h)]
    simp [hne]

theorem transitionCount_hidden (es : List Entry) (styles : Nat → Style) (c : Nat)
    (h : styles c = hiddenStyle) :
    transitionCount c styles es = if es.any (shows c) then 1 else 0 := by
  induction es generalizing styles with
  | nil => rfl
  | cons e rest ih =>
    unfold transitionCount
    have hstep := applyEntry_hidden styles e c h
    by_cases hs : shows c e = true
    · rw [if_pos hs] at hstep
      rw [transitionCount_visible rest _ c hstep]
      simp [h, hstep, hs]
    · rw [if_neg hs] at hstep
      rw [ih _ hstep]
      simp [h, hstep, hs, hiddenStyle_ne_visibleStyle]

theorem runBatches_eq_observerCallback (batches : List (List Entry)) (styles : Nat → Style) :
    runBatches styles batches = observerCallback styles batches.flatten := by
  unfold runBatches observerCallback
  rw [List.foldl_flatten]

/-- C7, as stated, fails: a card whose entries are all non-intersecting makes no transition,
not one, and stays hidden. -/
theorem card_transition_counterexample :
    (0 : Nat) ∈ [0] ∧
    transitionCount 0 (domContentLoaded [0] (fun _ => ⟨"", "", ""⟩))
      ([[⟨0, false⟩], [⟨0, false⟩]] : List (List Entry)).flatten = 0 ∧
    runBatches (domContentLoaded [0] (fun _ => ⟨"", "", ""⟩)) [[⟨0, false⟩], [⟨0, false⟩]] 0
      = hiddenStyle := by
  decide

/-- C7, amended: after the `DOMContentLoaded` handler set every card to hidden, for every
sequence of callback batches an observed card goes from hidden to visible at most once, and
once exactly when some entry for it is intersecting: it is hidden as long as no entry for it was
intersecting, visible from the first intersecting entry on, and no later entry makes it hidden
again or changes its style. -/
theorem card_transition_at_most_once (cards : List Nat) (styles : Nat → Style)
    (batches later : List (List Entry)) (c : Nat) (hc : c ∈ cards) :
    transitionCount c (domContentLoaded cards styles) batches.flatten =
      (if batches.flatten.any (shows c) then 1 else 0) ∧
    runBatches (domContentLoaded cards styles) batches c =
      (if batches.flatten.any (shows c) then visibleStyle else hiddenStyle) ∧
    (batches.flatten.any (shows c) = true →
      runBatches (domContentLoaded cards styles) (batches ++ later) c = visibleStyle ∧
      transitionCount c (domContentLoaded cards styles) (batches ++ later).flatten = 1) := by
  have hinit : domContentLoaded cards styles c = hiddenStyle := by
    rw [domContentLoaded_apply, if_pos hc]
  refine ⟨transitionCount_hidden _ _ c hinit, ?_, ?_⟩
  · rw [runBatches_eq_observerCallback, observerCallback_hidden _ _ c hinit]
  · intro hany
    have hany2 : (batches ++ later).flatten.any (shows c) = true := by
      rw [List.flatten_append, List.any_append, hany]
      rfl
    constructor
    · rw [runBatches_eq_observerCallback, observerCallback_hidden _ _ c hinit, if_pos hany2]
    · rw [transitionCount_hidden _ _ c hinit, if_pos hany2]

/-- C7 (amended) for card 7 of the cards 3 and 7 over three batches. -/
theorem card_transition_at_most_once_witness :
    (7 : Nat) ∈ [3, 7] ∧
    transitionCount 7 (domContentLoaded [3, 7] (fun _ => ⟨"", "", ""⟩))
      ([[⟨3, true⟩, ⟨7, false⟩], [⟨7, true⟩], [⟨7, false⟩, ⟨7, true⟩]] :
        List (List Entry)).flatten =
      (if ([[⟨3, true⟩, ⟨7, false⟩], [⟨7, true⟩], [⟨7, false⟩, ⟨7, true⟩]] :
        List (List Entry)).flatten.any (shows 7) then 1 else 0) :=
  ⟨by decide,
    (card_transition_at_most_once [3, 7] (fun _ => ⟨"", "", ""⟩)
      [[⟨3, true⟩, ⟨7, false⟩], [⟨7, true⟩], [⟨7, false⟩, ⟨7, true⟩]] [] 7 (by decide)).1⟩

end LeadGenerator
